import Mathlib

/-!
Shallow embedding of the Batch Submission & Settlement Pipeline of
src/app.py (Farmers Payment Module, a Dash application over sqlite).

The sqlite tables users, submission_batches, farmer_payments and
payment_history become lists of records in a Store structure; the
timestamp columns are elided (no claim mentions them).  Monetary
amounts (sqlite REAL) are modelled as Int: the code only ever copies
and sums them, so exact arithmetic is faithful.  Status values are the
free-form strings the source writes.  Randomness (random.random and
random.choice inside handle_payment_processing) is modelled as an
explicit policy argument mapping a payment id to the drawn Outcome,
so a run of the code corresponds to one choice of policy.  The
try/except around the submission insert is modelled by an explicit
dbFail flag: true means some persistence step raised, in which case
conn.rollback restores the pre-transaction store.
-/

structure User where
  id : Nat
  username : String
  role : String
  cooperative_name : String
deriving DecidableEq

structure Batch where
  id : Nat
  cooperative_id : Nat
  filename : String
  record_count : Nat
  total_amount : Int
  status : String
  admin_notes : Option String
  cooperative_notes : Option String
deriving DecidableEq

structure FarmerPayment where
  id : Nat
  batch_id : Nat
  farmer_name : String
  bank_name : String
  account_number : String
  amount : Int
  status : String
  failure_reason : Option String
deriving DecidableEq

structure HistoryRow where
  batch_id : Nat
  cooperative_name : String
  filename : String
  record_count : Nat
  total_amount : Int
deriving DecidableEq

structure Store where
  users : List User
  batches : List Batch
  payments : List FarmerPayment
  history : List HistoryRow
deriving DecidableEq

/-- One row of the edited upload table handed to submit_to_admin
(columns farmer_name, bank_name, account_number, amount). -/
structure RowInput where
  farmer_name : String
  bank_name : String
  account_number : String
  amount : Int
deriving DecidableEq

/-- Outcome of the submit_to_admin callback: no table data gives the
silent no_update branch, a database exception gives the rollback
branch, success carries the record count of the alert message. -/
inductive SubmitOutcome where
  | noUpdate : SubmitOutcome
  | dbError : SubmitOutcome
  | success : Nat → SubmitOutcome
deriving DecidableEq

/-- sqlite AUTOINCREMENT id for a fresh submission_batches row. -/
def nextBatchId (s : Store) : Nat :=
  (s.batches.map (fun b => b.id)).foldr Nat.max 0 + 1

/-- sqlite AUTOINCREMENT id for the next farmer_payments row. -/
def nextPaymentId (s : Store) : Nat :=
  (s.payments.map (fun p => p.id)).foldr Nat.max 0 + 1

/-- The farmer_payments rows appended by df_to_db.to_sql: every row of
the uploaded table, tagged with the new batch id, status left at the
schema default of pending and failure_reason at NULL. -/
def mkPayments (bid : Nat) (base : Nat) (rows : List RowInput) : List FarmerPayment :=
  rows.enum.map (fun ir =>
    { id := base + ir.1
      batch_id := bid
      farmer_name := ir.2.farmer_name
      bank_name := ir.2.bank_name
      account_number := ir.2.account_number
      amount := ir.2.amount
      status := "pending"
      failure_reason := none })

/-- Embedding of the submit_to_admin callback (src/app.py lines
383-406).  Empty table data hits the early no_update return.  Otherwise
the INSERT INTO submission_batches (record_count = len(df),
total_amount = df.amount.sum(), status = pending_approval) and the
to_sql append of the payment rows run in one transaction: if any step
raises (dbFail), conn.rollback leaves the store unchanged; otherwise
conn.commit persists the batch row and every payment row together. -/
def submit_to_admin (s : Store) (coopId : Nat) (filename : String)
    (rows : List RowInput) (coopNote : Option String) (dbFail : Bool) :
    SubmitOutcome × Store :=
  if rows.isEmpty then (SubmitOutcome.noUpdate, s)
  else if dbFail then (SubmitOutcome.dbError, s)
  else
    let bid := nextBatchId s
    let batch : Batch :=
      { id := bid
        cooperative_id := coopId
        filename := filename
        record_count := rows.length
        total_amount := (rows.map (fun r => r.amount)).sum
        status := "pending_approval"
        admin_notes := none
        cooperative_notes := coopNote }
    (SubmitOutcome.success rows.length,
      { s with
        batches := s.batches ++ [batch]
        payments := s.payments ++ mkPayments bid (nextPaymentId s) rows })

/-- Embedding of the save_admin_note callback (src/app.py lines
476-489): UPDATE submission_batches SET admin_notes = note WHERE
id = batchId, then an unconditional success alert.  An id matching no
row updates nothing and still reports success. -/
def save_admin_note (s : Store) (batchId : Nat) (note : String) :
    (Bool × String × String) × Store :=
  ((true, "Response saved successfully!", "success"),
    { s with
      batches := s.batches.map (fun b =>
        if b.id = batchId then { b with admin_notes := some note } else b) })

/-- The fixed failure reason pool of handle_payment_processing. -/
inductive Reason where
  | invalidAccount : Reason
  | bankError : Reason
  | nameMismatch : Reason
deriving DecidableEq

def reasonText : Reason → String
  | Reason.invalidAccount => "Invalid Account"
  | Reason.bankError => "Bank Error"
  | Reason.nameMismatch => "Name Mismatch"

/-- Per-item result of one draw of the simulated rail: random.random()
below 0.95 resolves paid, otherwise failed with a random.choice from
the reason pool. -/
inductive Outcome where
  | paid : Outcome
  | failed : Reason → Outcome
deriving DecidableEq

def isPaid : Outcome → Bool
  | Outcome.paid => true
  | Outcome.failed _ => false

/-- The ipn dict returned by the processing branch: cooperative name,
success and failed counters, and total set from record_count. -/
structure IPN where
  coop : String
  success : Nat
  failed : Nat
  total : Nat
deriving DecidableEq

def find_batch (s : Store) (bid : Nat) : Option Batch :=
  s.batches.find? (fun b => b.id == bid)

def find_user (s : Store) (uid : Nat) : Option User :=
  s.users.find? (fun u => u.id == uid)

/-- The SELECT joining submission_batches with users that opens the
processing branch: cooperative_name, filename, record_count and
total_amount of the batch, or none when the join yields no row. -/
def batch_info (s : Store) (bid : Nat) :
    Option (String × String × Nat × Int) :=
  match find_batch s bid with
  | none => none
  | some b =>
    match find_user s b.cooperative_id with
    | none => none
    | some u => some (u.cooperative_name, b.filename, b.record_count, b.total_amount)

/-- UPDATE submission_batches SET status = processed WHERE id = bid. -/
def settledBatches (s : Store) (bid : Nat) : List Batch :=
  s.batches.map (fun b => if b.id = bid then { b with status := "processed" } else b)

/-- The row update performed for one selected payment id: paid items
get (paid, NULL), failed items get (failed, reason). -/
def settleOne (policy : Nat → Outcome) (p : FarmerPayment) : FarmerPayment :=
  match policy p.id with
  | Outcome.paid => { p with status := "paid", failure_reason := none }
  | Outcome.failed r => { p with status := "failed", failure_reason := some (reasonText r) }

/-- Effect of the executemany UPDATE on farmer_payments: the SELECT
filtered only on batch_id (no status filter and no ORDER BY), so every
row of the batch is rewritten from its drawn outcome; ids are the
table's primary key, so updating by id is updating the batch's rows. -/
def settledPayments (s : Store) (bid : Nat) (policy : Nat → Outcome) :
    List FarmerPayment :=
  s.payments.map (fun p => if p.batch_id = bid then settleOne policy p else p)

/-- SELECT id FROM farmer_payments WHERE batch_id = bid. -/
def batchPaymentIds (s : Store) (bid : Nat) : List Nat :=
  (s.payments.filter (fun p => p.batch_id == bid)).map (fun p => p.id)

/-- The success counter accumulated over the selected ids. -/
def paidCount (s : Store) (bid : Nat) (policy : Nat → Outcome) : Nat :=
  ((batchPaymentIds s bid).filter (fun pid => isPaid (policy pid))).length

/-- The failed counter accumulated over the selected ids. -/
def failedCount (s : Store) (bid : Nat) (policy : Nat → Outcome) : Nat :=
  ((batchPaymentIds s bid).filter (fun pid => !(isPaid (policy pid)))).length

/-- Embedding of the terminal interval branch of the
handle_payment_processing callback (src/app.py lines 520-550): fetch
batch_info, set the batch status to processed unconditionally, resolve
every farmer_payments row of the batch through the drawn outcomes,
insert one payment_history row when batch_info was found (carrying
record_count and total_amount straight from the batch row), and build
the ipn dict whose total field is batch_info[2], the record_count.
When the join found no row the code still performs the updates and
then crashes building the ipn; that path returns none. -/
def handle_payment_processing (s : Store) (bid : Nat)
    (policy : Nat → Outcome) : Option IPN × Store :=
  match batch_info s bid with
  | none =>
    (none,
      { s with
        batches := settledBatches s bid
        payments := settledPayments s bid policy })
  | some (coop, fn, rc, ta) =>
    (some { coop := coop
            success := paidCount s bid policy
            failed := failedCount s bid policy
            total := rc },
      { s with
        batches := settledBatches s bid
        payments := settledPayments s bid policy
        history := s.history ++
          [{ batch_id := bid
             cooperative_name := coop
             filename := fn
             record_count := rc
             total_amount := ta }] })

def ipnBody (d : IPN) : String :=
  d.coop ++ ": Paid " ++ toString d.success ++ "/" ++ toString d.total ++
    " farmers. (" ++ toString d.failed ++ " failed)"

/-- Embedding of the show_ipn_toast callback (src/app.py lines
561-565): falsy store data closes the toast; any real ipn dict opens
one toast whose icon is warning when failed is positive and success
otherwise. -/
def show_ipn_toast (data : Option IPN) : Bool × String × String × String :=
  match data with
  | none => (false, "", "", "")
  | some d =>
    (true, "IPN: Transaction Complete", ipnBody d,
      if d.failed > 0 then "warning" else "success")

/-! ### Concrete fixtures used by counterexamples and witnesses -/

def emptyStore : Store :=
  { users := [], batches := [], payments := [], history := [] }

def kcuUser : User :=
  { id := 2, username := "kcu", role := "cooperative",
    cooperative_name := "Kilimanjaro Cooperative Union" }

/-- A batch that has already been processed once. -/
def processedBatch : Batch :=
  { id := 1, cooperative_id := 2, filename := "coffee.csv", record_count := 1,
    total_amount := 100, status := "processed",
    admin_notes := none, cooperative_notes := none }

/-- Its single line item, already resolved paid by the first pass. -/
def paidItem : FarmerPayment :=
  { id := 1, batch_id := 1, farmer_name := "Asha", bank_name := "CRDB",
    account_number := "111", amount := 100, status := "paid",
    failure_reason := none }

def processedStore : Store :=
  { users := [kcuUser], batches := [processedBatch], payments := [paidItem],
    history := [] }

def alwaysPaid : Nat → Outcome := fun _ => Outcome.paid

def alwaysFail : Nat → Outcome := fun _ => Outcome.failed Reason.bankError

/-! ### Helper lemmas about the processing branch -/

theorem payments_after (s : Store) (bid : Nat) (policy : Nat → Outcome) :
    (handle_payment_processing s bid policy).2.payments =
      settledPayments s bid policy := by
  unfold handle_payment_processing
  cases h : batch_info s bid with
  | none => rfl
  | some info =>
    obtain ⟨coop, fn, rc, ta⟩ := info
    rfl

theorem batches_after (s : Store) (bid : Nat) (policy : Nat → Outcome) :
    (handle_payment_processing s bid policy).2.batches =
      settledBatches s bid := by
  unfold handle_payment_processing
  cases h : batch_info s bid with
  | none => rfl
  | some info =>
    obtain ⟨coop, fn, rc, ta⟩ := info
    rfl

theorem batch_info_eq (s : Store) (bid : Nat) (b : Batch) (u : User)
    (hb : find_batch s bid = some b)
    (hu : find_user s b.cooperative_id = some u) :
    batch_info s bid =
      some (u.cooperative_name, b.filename, b.record_count, b.total_amount) := by
  simp [batch_info, hb, hu]

theorem ipn_after (s : Store) (bid : Nat) (policy : Nat → Outcome)
    (b : Batch) (u : User)
    (hb : find_batch s bid = some b)
    (hu : find_user s b.cooperative_id = some u) :
    (handle_payment_processing s bid policy).1 =
      some { coop := u.cooperative_name
             success := paidCount s bid policy
             failed := failedCount s bid policy
             total := b.record_count } := by
  unfold handle_payment_processing
  rw [batch_info_eq s bid b u hb hu]

theorem history_after (s : Store) (bid : Nat) (policy : Nat → Outcome)
    (b : Batch) (u : User)
    (hb : find_batch s bid = some b)
    (hu : find_user s b.cooperative_id = some u) :
    (handle_payment_processing s bid policy).2.history =
      s.history ++
        [{ batch_id := bid
           cooperative_name := u.cooperative_name
           filename := b.filename
           record_count := b.record_count
           total_amount := b.total_amount }] := by
  unfold handle_payment_processing
  rw [batch_info_eq s bid b u hb hu]

theorem settled_mem (s : Store) (bid : Nat) (policy : Nat → Outcome)
    (p : FarmerPayment) (hp : p ∈ s.payments) (hpb : p.batch_id = bid) :
    settleOne policy p ∈ settledPayments s bid policy := by
  unfold settledPayments
  have h := List.mem_map_of_mem
    (fun q => if q.batch_id = bid then settleOne policy q else q) hp
  simpa [hpb] using h

theorem settleOne_shape (policy : Nat → Outcome) (p : FarmerPayment) :
    ((settleOne policy p).status = "paid" ∧
      (settleOne policy p).failure_reason = none) ∨
    (∃ r : Reason, (settleOne policy p).status = "failed" ∧
      (settleOne policy p).failure_reason = some (reasonText r)) := by
  unfold settleOne
  cases h : policy p.id with
  | paid => exact Or.inl ⟨rfl, rfl⟩
  | failed r => exact Or.inr ⟨r, rfl, rfl⟩

theorem settleOne_batch_id (policy : Nat → Outcome) (p : FarmerPayment) :
    (settleOne policy p).batch_id = p.batch_id := by
  unfold settleOne
  cases h : policy p.id <;> rfl

/-- A freshly submitted batch awaiting approval, with two pending items. -/
def pendingBatch : Batch :=
  { id := 1, cooperative_id := 2, filename := "maize.csv", record_count := 2,
    total_amount := 3500, status := "pending_approval",
    admin_notes := none, cooperative_notes := some "season one" }

def pendingItem1 : FarmerPayment :=
  { id := 1, batch_id := 1, farmer_name := "Juma", bank_name := "NMB",
    account_number := "222", amount := 1000, status := "pending",
    failure_reason := none }

def pendingItem2 : FarmerPayment :=
  { id := 2, batch_id := 1, farmer_name := "Neema", bank_name := "CRDB",
    account_number := "333", amount := 2500, status := "pending",
    failure_reason := none }

def pendingStore : Store :=
  { users := [kcuUser], batches := [pendingBatch],
    payments := [pendingItem1, pendingItem2], history := [] }

/-! ### Claim C1: settlement is not idempotent -/

/-- Claim C1 counterexample: in processedStore, batch 1 is already
processed and its single line item is paid; invoking the settlement
branch again with a draw that fails the item re-flips the paid item to
failed, so the second call is not a no-op and its result is freshly
computed rather than the previously stored aggregate. -/
theorem c1_settle_not_idempotent :
    (find_batch processedStore 1).map Batch.status = some "processed" ∧
    processedStore.payments.map FarmerPayment.status = ["paid"] ∧
    (handle_payment_processing processedStore 1 alwaysFail).2.payments.map
      FarmerPayment.status = ["failed"] := by
  decide

/-- Claim C1 (amended): the code has no idempotence guard: invoked on a
batch already in status processed, the settlement branch re-resolves
every line item of the batch through the freshly drawn outcomes, so
line items (paid ones included) are rewritten by the second call
instead of being left untouched. -/
theorem c1_resettle_reprocesses (s : Store) (bid : Nat)
    (policy : Nat → Outcome) (b : Batch)
    (hb : find_batch s bid = some b) (hst : b.status = "processed")
    (p : FarmerPayment) (hp : p ∈ s.payments) (hpb : p.batch_id = bid) :
    settleOne policy p ∈ (handle_payment_processing s bid policy).2.payments := by
  rw [payments_after]
  exact settled_mem s bid policy p hp hpb

theorem c1_resettle_reprocesses_witness :
    settleOne alwaysFail paidItem ∈
      (handle_payment_processing processedStore 1 alwaysFail).2.payments :=
  c1_resettle_reprocesses processedStore 1 alwaysFail processedBatch
    (by decide) (by decide) paidItem (by decide) (by decide)

/-! ### Claim C2: no status guard on entering settlement -/

/-- Claim C2 counterexample: batch 1 of processedStore is already
processed, yet the Pay Now processing path does not fail with any
error and does not leave the state unchanged: it returns a settlement
result and mutates the store. -/
theorem c2_no_guard_on_processed :
    (find_batch processedStore 1).map Batch.status = some "processed" ∧
    ((handle_payment_processing processedStore 1 alwaysPaid).1).isSome = true ∧
    (handle_payment_processing processedStore 1 alwaysPaid).2 ≠ processedStore := by
  decide

/-- Claim C2 (amended): the processing path performs no status guard at
all: for a batch in any status whose submitting cooperative exists, it
returns a settlement result (there is no InvalidStateError and no
intermediate processing status in the code) and unconditionally sets
the batch status straight to processed. -/
theorem c2_settlement_unguarded (s : Store) (bid : Nat)
    (policy : Nat → Outcome) (b : Batch) (u : User)
    (hb : find_batch s bid = some b)
    (hu : find_user s b.cooperative_id = some u) :
    ((handle_payment_processing s bid policy).1).isSome = true ∧
    ∀ b2 ∈ (handle_payment_processing s bid policy).2.batches,
      b2.id = bid → b2.status = "processed" := by
  constructor
  · rw [ipn_after s bid policy b u hb hu]
    rfl
  · intro b2 hmem hid
    rw [batches_after] at hmem
    unfold settledBatches at hmem
    obtain ⟨b1, hb1, rfl⟩ := List.mem_map.mp hmem
    by_cases h : b1.id = bid
    · rw [if_pos h]
    · rw [if_neg h] at hid
      exact absurd hid h

theorem c2_settlement_unguarded_witness :
    ((handle_payment_processing pendingStore 1 alwaysPaid).1).isSome = true ∧
    ∀ b2 ∈ (handle_payment_processing pendingStore 1 alwaysPaid).2.batches,
      b2.id = 1 → b2.status = "processed" :=
  c2_settlement_unguarded pendingStore 1 alwaysPaid pendingBatch kcuUser
    (by decide) (by decide)

/-! ### Submission claims -/

theorem mkPayments_length (bid base : Nat) (rows : List RowInput) :
    (mkPayments bid base rows).length = rows.length := by
  unfold mkPayments
  rw [List.length_map, List.enum_length]

/-- A line item the spec calls invalid: non-positive amount and empty
payee bank and account fields. -/
def badRow : RowInput :=
  { farmer_name := "Ghost", bank_name := "", account_number := "",
    amount := -5 }

/-- Claim C3 counterexample: a submission whose single line item has a
negative amount and empty payee bank/account is not rejected with a
ValidationError: submit reports success and persists a new batch row
together with the line-item row. -/
theorem c3_invalid_rows_accepted :
    (submit_to_admin emptyStore 2 "bad.csv" [badRow] none false).1 =
      SubmitOutcome.success 1 ∧
    (submit_to_admin emptyStore 2 "bad.csv" [badRow] none false).2.batches.length = 1 ∧
    (submit_to_admin emptyStore 2 "bad.csv" [badRow] none false).2.payments.length = 1 := by
  decide

/-- Claim C3 (amended): submit_to_admin performs no value validation at
all.  An empty line-item list is a silent no-op (nothing persisted,
but no error of any kind is surfaced), and any non-empty list — even
one whose items have non-positive amounts or empty payee fields — is
persisted as given and reported as success. -/
theorem c3_no_validation (s : Store) (coopId : Nat) (fn : String)
    (rows : List RowInput) (note : Option String) :
    (rows = [] →
      submit_to_admin s coopId fn rows note false = (SubmitOutcome.noUpdate, s)) ∧
    (rows ≠ [] →
      (submit_to_admin s coopId fn rows note false).1 =
        SubmitOutcome.success rows.length ∧
      (submit_to_admin s coopId fn rows note false).2.batches.length =
        s.batches.length + 1 ∧
      (submit_to_admin s coopId fn rows note false).2.payments.length =
        s.payments.length + rows.length) := by
  constructor
  · intro h
    subst h
    rfl
  · intro h
    have hne2 : rows.isEmpty = false := by
      cases rows with
      | nil => exact absurd rfl h
      | cons a l => rfl
    unfold submit_to_admin
    rw [hne2]
    simp [mkPayments_length]

theorem c3_no_validation_witness :
    (submit_to_admin emptyStore 2 "bad2.csv" [badRow] none false).1 =
      SubmitOutcome.success 1 :=
  ((c3_no_validation emptyStore 2 "bad2.csv" [badRow] none).2 (by decide)).1

/-- The spec's example scenario: three items with amounts 1000, 2500
and 750, totalling 4250. -/
def specRows : List RowInput :=
  [ { farmer_name := "Asha", bank_name := "CRDB", account_number := "111",
      amount := 1000 },
    { farmer_name := "Juma", bank_name := "NMB", account_number := "222",
      amount := 2500 },
    { farmer_name := "Neema", bank_name := "CRDB", account_number := "333",
      amount := 750 } ]

/-- Claim C5: for every non-empty submission (so in particular every
valid one), immediately after submit_to_admin the persisted batch has
total_amount equal to the sum of the submitted amounts, record_count
equal to the number of line items, status pending_approval, and every
persisted line-item row carries the new batch id, status pending and
no failure reason. -/
theorem c5_submit_postcondition (s : Store) (coopId : Nat) (fn : String)
    (rows : List RowInput) (note : Option String) (hne : rows ≠ []) :
    ∃ b : Batch,
      (submit_to_admin s coopId fn rows note false).2.batches = s.batches ++ [b] ∧
      b.total_amount = (rows.map (fun r => r.amount)).sum ∧
      b.record_count = rows.length ∧
      b.status = "pending_approval" ∧
      (submit_to_admin s coopId fn rows note false).2.payments =
        s.payments ++ mkPayments b.id (nextPaymentId s) rows ∧
      (mkPayments b.id (nextPaymentId s) rows).length = rows.length ∧
      ∀ p ∈ mkPayments b.id (nextPaymentId s) rows,
        p.batch_id = b.id ∧ p.status = "pending" ∧ p.failure_reason = none := by
  have hne2 : rows.isEmpty = false := by
    cases rows with
    | nil => exact absurd rfl hne
    | cons a l => rfl
  refine ⟨{ id := nextBatchId s
            cooperative_id := coopId
            filename := fn
            record_count := rows.length
            total_amount := (rows.map (fun r => r.amount)).sum
            status := "pending_approval"
            admin_notes := none
            cooperative_notes := note },
          ?_, rfl, rfl, rfl, ?_, mkPayments_length _ _ _, ?_⟩
  · unfold submit_to_admin
    rw [hne2]
    simp
  · unfold submit_to_admin
    rw [hne2]
    simp
  · intro p hp
    unfold mkPayments at hp
    obtain ⟨ir, hir, rfl⟩ := List.mem_map.mp hp
    exact ⟨rfl, rfl, rfl⟩

theorem c5_submit_postcondition_witness :
    ∃ b : Batch,
      (submit_to_admin emptyStore 2 "harvest.csv" specRows none false).2.batches =
        emptyStore.batches ++ [b] ∧
      b.total_amount = 4250 ∧ b.record_count = 3 ∧
      b.status = "pending_approval" := by
  obtain ⟨b, h1, h2, h3, h4, _, _, _⟩ :=
    c5_submit_postcondition emptyStore 2 "harvest.csv" specRows none (by decide)
  refine ⟨b, h1, ?_, ?_, h4⟩
  · rw [h2]
    decide
  · rw [h3]
    rfl

/-- Claim C10: submission persistence is all-or-nothing.  If any step
of the transaction raises, the except branch rolls back and the store
is exactly the pre-submission one with a database error surfaced;
otherwise the single commit persists the batch row and every line-item
row together, as one extension of the store. -/
theorem c10_submit_atomic (s : Store) (coopId : Nat) (fn : String)
    (rows : List RowInput) (note : Option String) (dbFail : Bool)
    (hne : rows ≠ []) :
    (dbFail = true →
      submit_to_admin s coopId fn rows note dbFail = (SubmitOutcome.dbError, s)) ∧
    (dbFail = false →
      ∃ b : Batch,
        (submit_to_admin s coopId fn rows note dbFail).2 =
          { s with
            batches := s.batches ++ [b]
            payments := s.payments ++ mkPayments b.id (nextPaymentId s) rows }) := by
  have hne2 : rows.isEmpty = false := by
    cases rows with
    | nil => exact absurd rfl hne
    | cons a l => rfl
  constructor
  · intro hf
    subst hf
    unfold submit_to_admin
    rw [hne2]
    rfl
  · intro hf
    subst hf
    refine ⟨{ id := nextBatchId s
              cooperative_id := coopId
              filename := fn
              record_count := rows.length
              total_amount := (rows.map (fun r => r.amount)).sum
              status := "pending_approval"
              admin_notes := none
              cooperative_notes := note }, ?_⟩
    unfold submit_to_admin
    rw [hne2]
    simp

theorem c10_submit_atomic_witness :
    submit_to_admin emptyStore 2 "roll.csv" specRows none true =
      (SubmitOutcome.dbError, emptyStore) :=
  (c10_submit_atomic emptyStore 2 "roll.csv" specRows none true (by decide)).1 rfl

/-! ### Claim C4: settlement reads all items, not only pending ones -/

/-- A batch part-way through its life: one item already paid, one still
pending. -/
def mixedBatch : Batch :=
  { id := 3, cooperative_id := 2, filename := "mixed.csv", record_count := 2,
    total_amount := 700, status := "pending_approval",
    admin_notes := none, cooperative_notes := none }

def mixedPaid : FarmerPayment :=
  { id := 7, batch_id := 3, farmer_name := "Amina", bank_name := "NBC",
    account_number := "444", amount := 300, status := "paid",
    failure_reason := none }

def mixedPending : FarmerPayment :=
  { id := 8, batch_id := 3, farmer_name := "Baraka", bank_name := "NBC",
    account_number := "555", amount := 400, status := "pending",
    failure_reason := none }

def mixedStore : Store :=
  { users := [kcuUser], batches := [mixedBatch],
    payments := [mixedPaid, mixedPending], history := [] }

/-- Claim C4 counterexample: the settlement SELECT carries no status
filter, so an item already in the terminal status paid (id 7) is read
and re-resolved alongside the pending one: with failing draws both end
up failed. -/
theorem c4_terminal_items_reprocessed :
    mixedStore.payments.map (fun p => (p.id, p.status)) =
      [(7, "paid"), (8, "pending")] ∧
    (handle_payment_processing mixedStore 3 alwaysFail).2.payments.map
        (fun p => (p.id, p.status)) =
      [(7, "failed"), (8, "failed")] := by
  decide

/-- Claim C4 (amended): settlement processes every line item of the
batch regardless of its current status, in the stored row order, and
resolves each one through the policy to either paid with no failure
reason or failed with a reason drawn from the fixed pool of three. -/
theorem c4_processes_all_items (s : Store) (bid : Nat)
    (policy : Nat → Outcome) (p : FarmerPayment)
    (hp : p ∈ s.payments) (hpb : p.batch_id = bid) :
    settleOne policy p ∈ (handle_payment_processing s bid policy).2.payments ∧
    (((settleOne policy p).status = "paid" ∧
        (settleOne policy p).failure_reason = none) ∨
      (∃ r : Reason, (settleOne policy p).status = "failed" ∧
        (settleOne policy p).failure_reason = some (reasonText r) ∧
        reasonText r ∈ ["Invalid Account", "Bank Error", "Name Mismatch"])) := by
  constructor
  · rw [payments_after]
    exact settled_mem s bid policy p hp hpb
  · rcases settleOne_shape policy p with h | ⟨r, h1, h2⟩
    · exact Or.inl h
    · refine Or.inr ⟨r, h1, h2, ?_⟩
      cases r <;> decide

theorem c4_processes_all_items_witness :
    settleOne alwaysPaid mixedPending ∈
      (handle_payment_processing mixedStore 3 alwaysPaid).2.payments ∧
    (((settleOne alwaysPaid mixedPending).status = "paid" ∧
        (settleOne alwaysPaid mixedPending).failure_reason = none) ∨
      (∃ r : Reason, (settleOne alwaysPaid mixedPending).status = "failed" ∧
        (settleOne alwaysPaid mixedPending).failure_reason = some (reasonText r) ∧
        reasonText r ∈ ["Invalid Account", "Bank Error", "Name Mismatch"])) :=
  c4_processes_all_items mixedStore 3 alwaysPaid mixedPending
    (by decide) (by decide)

/-! ### Claim C6: settlement and the recorded total -/

/-- Claim C6 counterexample: batch 1 was submitted with total_amount
3500, but the settlement result's total field is the record_count 2,
not the total read from the batch record: the returned aggregate does
not carry the batch total_amount at all. -/
theorem c6_result_total_is_record_count :
    (find_batch pendingStore 1).map Batch.total_amount = some 3500 ∧
    ((handle_payment_processing pendingStore 1 alwaysPaid).1).map IPN.total =
      some 2 ∧
    ((2 : Int) ≠ 3500) := by
  decide

/-- Claim C6 (amended): settlement never modifies any batch's id,
total_amount or record_count, and the payment_history row it inserts
carries record_count and total_amount read straight from the batch
record (not recomputed from paid items); the in-memory settlement
result, however, carries the batch's record_count as its total field
rather than the batch total_amount. -/
theorem c6_total_amount_frame (s : Store) (bid : Nat)
    (policy : Nat → Outcome) (b : Batch) (u : User)
    (hb : find_batch s bid = some b)
    (hu : find_user s b.cooperative_id = some u) :
    ((handle_payment_processing s bid policy).2.batches.map
        (fun b2 => (b2.id, b2.total_amount, b2.record_count)) =
      s.batches.map (fun b2 => (b2.id, b2.total_amount, b2.record_count))) ∧
    (handle_payment_processing s bid policy).2.history =
      s.history ++
        [{ batch_id := bid
           cooperative_name := u.cooperative_name
           filename := b.filename
           record_count := b.record_count
           total_amount := b.total_amount }] ∧
    (handle_payment_processing s bid policy).1 =
      some { coop := u.cooperative_name
             success := paidCount s bid policy
             failed := failedCount s bid policy
             total := b.record_count } := by
  refine ⟨?_, history_after s bid policy b u hb hu,
          ipn_after s bid policy b u hb hu⟩
  rw [batches_after]
  unfold settledBatches
  rw [List.map_map]
  apply List.map_congr_left
  intro b2 hb2
  by_cases h : b2.id = bid
  · simp [h]
  · simp [h]

theorem c6_total_amount_frame_witness :
    ((handle_payment_processing pendingStore 1 alwaysPaid).2.batches.map
        (fun b2 => (b2.id, b2.total_amount, b2.record_count)) =
      pendingStore.batches.map
        (fun b2 => (b2.id, b2.total_amount, b2.record_count))) ∧
    (handle_payment_processing pendingStore 1 alwaysPaid).2.history =
      pendingStore.history ++
        [{ batch_id := 1
           cooperative_name := kcuUser.cooperative_name
           filename := pendingBatch.filename
           record_count := pendingBatch.record_count
           total_amount := pendingBatch.total_amount }] ∧
    (handle_payment_processing pendingStore 1 alwaysPaid).1 =
      some { coop := kcuUser.cooperative_name
             success := paidCount pendingStore 1 alwaysPaid
             failed := failedCount pendingStore 1 alwaysPaid
             total := pendingBatch.record_count } :=
  c6_total_amount_frame pendingStore 1 alwaysPaid pendingBatch kcuUser
    (by decide) (by decide)

/-! ### Claim C7: failure_reason is set iff an item failed -/

theorem settleOne_invariant (policy : Nat → Outcome) (q : FarmerPayment) :
    ((settleOne policy q).failure_reason.isSome = true ↔
      (settleOne policy q).status = "failed") ∧
    ((settleOne policy q).status = "paid" →
      (settleOne policy q).failure_reason = none) := by
  unfold settleOne
  cases policy q.id with
  | paid => simp
  | failed r => simp

/-- Claim C7: after a settlement pass, every line item of the settled
batch has failure_reason set exactly when its status is failed, and an
item resolved paid carries no failure reason. -/
theorem c7_failure_reason_iff (s : Store) (bid : Nat)
    (policy : Nat → Outcome) (p : FarmerPayment)
    (hp : p ∈ (handle_payment_processing s bid policy).2.payments)
    (hpb : p.batch_id = bid) :
    (p.failure_reason.isSome = true ↔ p.status = "failed") ∧
    (p.status = "paid" → p.failure_reason = none) := by
  rw [payments_after] at hp
  unfold settledPayments at hp
  obtain ⟨q, hq, rfl⟩ := List.mem_map.mp hp
  by_cases h : q.batch_id = bid
  · rw [if_pos h]
    exact settleOne_invariant policy q
  · rw [if_neg h] at hpb
    exact absurd hpb h

theorem c7_failure_reason_iff_witness :
    ((settleOne alwaysFail mixedPaid).failure_reason.isSome = true ↔
      (settleOne alwaysFail mixedPaid).status = "failed") ∧
    ((settleOne alwaysFail mixedPaid).status = "paid" →
      (settleOne alwaysFail mixedPaid).failure_reason = none) :=
  c7_failure_reason_iff mixedStore 3 alwaysFail (settleOne alwaysFail mixedPaid)
    (by decide) (by decide)

/-! ### Claim C8: the toast emitter is a total function -/

/-- Claim C8: for every settlement result the toast emitter produces
exactly one open toast, with icon warning when the failed count is
positive and success otherwise; it is a total function and never
fails. -/
theorem c8_toast_severity (d : IPN) :
    show_ipn_toast (some d) =
      (true, "IPN: Transaction Complete", ipnBody d,
        if d.failed > 0 then "warning" else "success") := rfl

/-! ### Claim C9: saving the reviewer note -/

/-- Claim C9 counterexample: batch id 9 is absent from the store, yet
save_admin_note does not fail with a NotFoundError: it reports success
and leaves the store unchanged. -/
theorem c9_absent_batch_reports_success :
    find_batch emptyStore 9 = none ∧
    (save_admin_note emptyStore 9 "hello").1 =
      (true, "Response saved successfully!", "success") ∧
    (save_admin_note emptyStore 9 "hello").2 = emptyStore := by
  decide

/-- Claim C9 (amended): save_admin_note overwrites admin_notes of the
matching batch and changes nothing else — users, payments, history and
every other field of every batch are untouched — but an absent batch
id is not an error: the update matches no row and the operation still
reports success. -/
theorem c9_note_overwrites_only (s : Store) (bid : Nat) (note : String) :
    (save_admin_note s bid note).1 =
      (true, "Response saved successfully!", "success") ∧
    (save_admin_note s bid note).2.users = s.users ∧
    (save_admin_note s bid note).2.payments = s.payments ∧
    (save_admin_note s bid note).2.history = s.history ∧
    (∀ b2 ∈ (save_admin_note s bid note).2.batches, ∃ b1 ∈ s.batches,
      b2.id = b1.id ∧ b2.status = b1.status ∧
      b2.total_amount = b1.total_amount ∧ b2.record_count = b1.record_count ∧
      b2.cooperative_notes = b1.cooperative_notes ∧
      (b1.id = bid → b2.admin_notes = some note) ∧
      (¬ b1.id = bid → b2 = b1)) ∧
    (find_batch s bid = none → (save_admin_note s bid note).2 = s) := by
  refine ⟨rfl, rfl, rfl, rfl, ?_, ?_⟩
  · intro b2 hmem
    replace hmem : b2 ∈ s.batches.map (fun b =>
        if b.id = bid then { b with admin_notes := some note } else b) := hmem
    obtain ⟨b1, hb1, rfl⟩ := List.mem_map.mp hmem
    by_cases h : b1.id = bid
    · rw [if_pos h]
      exact ⟨b1, hb1, rfl, rfl, rfl, rfl, rfl, fun _ => rfl,
        fun hx => absurd h hx⟩
    · rw [if_neg h]
      exact ⟨b1, hb1, rfl, rfl, rfl, rfl, rfl, fun hx => absurd hx h,
        fun _ => rfl⟩
  · intro hnone
    unfold find_batch at hnone
    have hall := List.find?_eq_none.mp hnone
    have hmap : s.batches.map (fun b =>
        if b.id = bid then { b with admin_notes := some note } else b) =
        s.batches.map id := by
      apply List.map_congr_left
      intro a ha
      have h2 : ¬ a.id = bid := by
        have h3 := hall a ha
        simpa using h3
      rw [if_neg h2]
      rfl
    unfold save_admin_note
    rw [hmap, List.map_id]

theorem c9_note_overwrites_only_witness :
    (save_admin_note pendingStore 1 "checked").1 =
      (true, "Response saved successfully!", "success") ∧
    (save_admin_note pendingStore 1 "checked").2.users = pendingStore.users ∧
    (save_admin_note pendingStore 1 "checked").2.payments =
      pendingStore.payments ∧
    (save_admin_note pendingStore 1 "checked").2.history =
      pendingStore.history ∧
    (∀ b2 ∈ (save_admin_note pendingStore 1 "checked").2.batches,
      ∃ b1 ∈ pendingStore.batches,
      b2.id = b1.id ∧ b2.status = b1.status ∧
      b2.total_amount = b1.total_amount ∧ b2.record_count = b1.record_count ∧
      b2.cooperative_notes = b1.cooperative_notes ∧
      (b1.id = 1 → b2.admin_notes = some "checked") ∧
      (¬ b1.id = 1 → b2 = b1)) ∧
    (find_batch pendingStore 1 = none →
      (save_admin_note pendingStore 1 "checked").2 = pendingStore) :=
  c9_note_overwrites_only pendingStore 1 "checked"
